import Mathlib

/-!
# Verification of `src/ext/geos_c_impl/factory.c` (rgeo GEOS factory bridge)

Shallow embedding of the factory / geometry-wrapper lifecycle code in
`factory.c`.  External collaborators (the GEOS engine, the Ruby runtime's
`cast` operation) are modelled as explicit inputs:

* a native `GEOSGeometry*` handle is `Option GEOSGeometry` (`none` = NULL);
* a coordinate sequence is a size query plus per-index X/Y/Z reads, each of
  which may fail (`GEOSCoordSeq_getSize_r` / `getX_r` / `getY_r` / `getZ_r`
  returning 0);  coordinate values (C `double`s compared with exact `==`)
  are modelled as exact scalars `Int`;
* a Ruby `VALUE` used as a class hint / member-class list is `KlassVal`
  (`nil`, a single class `cls`, or an array of classes `arr`);
* Ruby allocation and GEOS handle creation successes are explicit `Bool` /
  `Option` parameters;
* the tri-state Ruby result Qtrue/Qfalse/Qnil of the equality primitive is
  `Option Bool` (`none` = Qnil = indeterminate);
* a C function that would dereference a null pointer is modelled as
  returning an explicit `crash` outcome, so "does not crash" is statable.
-/

/-- Abstract identifier of a managed (Ruby) class held by the registry. -/
abbrev RClass : Type := Nat

/-- A Ruby `VALUE` appearing as the `klass` hint of `rgeo_wrap_geos_geometry`
or as the `klasses` field of geometry data: `Qnil`, a `T_CLASS`, or a
`T_ARRAY` of per-element classes. -/
inductive KlassVal : Type where
  | nil : KlassVal
  | cls (c : RClass) : KlassVal
  | arr (cs : List RClass) : KlassVal
deriving DecidableEq

/-- A GEOS coordinate sequence handle (`GEOSCoordSequence*`): a fallible size
query and fallible per-index coordinate reads, mirroring
`GEOSCoordSeq_getSize_r` / `getX_r` / `getY_r` / `getZ_r` (which return 0 on
failure, modelled as `none`). -/
structure GEOSCoordSeq : Type where
  size : Option Nat
  getX : Nat → Option Int
  getY : Nat → Option Int
  getZ : Nat → Option Int

/-- The GEOS geometry type id tags distinguished by the `switch` in
`rgeo_wrap_geos_geometry`; `other` covers every remaining id (the `default`
branch). -/
inductive GeomTypeId : Type where
  | point
  | lineString
  | linearRing
  | polygon
  | multiPoint
  | multiLineString
  | multiPolygon
  | geometryCollection
  | other
deriving DecidableEq

/-- A native GEOS geometry value reachable from a non-NULL `GEOSGeometry*`:
its runtime type id (`GEOSGeomTypeId_r`), its spatial reference id
(read/written by `GEOSSetSRID_r`), and its coordinate sequence
(`GEOSGeom_getCoordSeq_r`, NULL for geometries that have none). -/
structure GEOSGeometry : Type where
  typeId : GeomTypeId
  srid : Int
  coordSeq : Option GEOSCoordSeq

/-- The registry of managed classes (`RGeo_Globals`) consulted by the type
inference in `rgeo_wrap_geos_geometry`. -/
structure RGeo_Globals : Type where
  geos_geometry : RClass
  geos_point : RClass
  geos_line_string : RClass
  geos_linear_ring : RClass
  geos_polygon : RClass
  geos_multi_point : RClass
  geos_multi_line_string : RClass
  geos_multi_polygon : RClass
  geos_geometry_collection : RClass
deriving DecidableEq

/-- Factory data (`RGeo_FactoryData`): the GEOS context handle, the three
configuration integers, the four lazily-created serializer handles (NULL
when absent) and the globals reference. Context and helper handles are
abstract `Nat` identifiers. -/
structure RGeo_FactoryData : Type where
  geos_context : Nat
  flags : Int
  srid : Int
  buffer_resolution : Int
  wkt_reader : Option Nat
  wkb_reader : Option Nat
  wkt_writer : Option Nat
  wkb_writer : Option Nat
  globals : RGeo_Globals
deriving DecidableEq

/-- Geometry data (`RGeo_GeometryData`): the owned native handle (NULL when
detached/empty), the borrowed context handle, the factory back-reference
(`Qnil` when cleared) and the member-classes `VALUE`. -/
structure RGeo_GeometryData : Type where
  geom : Option GEOSGeometry
  geos_context : Option Nat
  factory : Option RGeo_FactoryData
  klasses : KlassVal

/-- A wrapped geometry object as produced by `Data_Wrap_Struct(klass, ...)`:
its Ruby class together with its `RGeo_GeometryData`. -/
structure WrappedGeometry : Type where
  cls : RClass
  data : RGeo_GeometryData

/-! ## Deep coordinate equality: `rgeo_geos_coordseqs_eql` -/

/-- The `for (i=0; i<len1; ++i)` loop body of `rgeo_geos_coordseqs_eql`,
transcribed from the source: at each index read X of both sequences (failure
of either read gives Qnil), compare, then Y likewise, then (when `check_z`)
Z of each sequence in turn; a mismatch gives Qfalse, and only when every
index passes is the initial Qtrue kept.  The first argument of the
recursion is the current index `i`, the second the number of remaining
indices. -/
def coordseqsEqlLoop (cs1 cs2 : GEOSCoordSeq) (check_z : Bool) :
    Nat → Nat → Option Bool
  | _, 0 => some true
  | i, Nat.succ rest =>
    match cs1.getX i, cs2.getX i with
    | some val1, some val2 =>
      if val1 = val2 then
        match cs1.getY i, cs2.getY i with
        | some w1, some w2 =>
          if w1 = w2 then
            if check_z then
              match cs1.getZ i with
              | none => none
              | some z1 =>
                match cs2.getZ i with
                | none => none
                | some z2 =>
                  if z1 ≠ z2 then some false
                  else coordseqsEqlLoop cs1 cs2 check_z (i + 1) rest
            else coordseqsEqlLoop cs1 cs2 check_z (i + 1) rest
          else some false
        | _, _ => none
      else some false
    | _, _ => none

/-- `rgeo_geos_coordseqs_eql(context, geom1, geom2, check_z)`.  Qnil
(indeterminate) unless both handles are non-NULL, both coordinate sequences
exist and both size reads succeed; then Qfalse when the lengths differ, and
otherwise the result of the per-index loop. -/
def rgeo_geos_coordseqs_eql (geom1 geom2 : Option GEOSGeometry)
    (check_z : Bool) : Option Bool :=
  match geom1, geom2 with
  | some g1, some g2 =>
    match g1.coordSeq, g2.coordSeq with
    | some cs1, some cs2 =>
      match cs1.size, cs2.size with
      | some len1, some len2 =>
        if len1 = len2 then coordseqsEqlLoop cs1 cs2 check_z 0 len1
        else some false
      | _, _ => none
    | _, _ => none
  | _, _ => none

/-! ### Specification-side restatement for claim C1 (refinement target)

Written from the spec's words: "Compares the coordinate sequences of two
native geometries component-wise: first lengths, then for each index X then
Y then (if `checkZ`) Z, short-circuiting on first mismatch with `false`.
Returns `indeterminate` if either geometry lacks a coordinate sequence or
any coordinate read fails." -/

/-- Spec-side comparison of the two sequences at one index: X, then Y, then
(when `check_z`) Z; `some false` at the first differing component, `none`
at the first failing read, `some true` when all compared components are
equal. -/
def coordCompareAt (cs1 cs2 : GEOSCoordSeq) (check_z : Bool) (i : Nat) :
    Option Bool :=
  match cs1.getX i, cs2.getX i with
  | some a, some b =>
    if a = b then
      match cs1.getY i, cs2.getY i with
      | some c, some d =>
        if c = d then
          if check_z then
            match cs1.getZ i, cs2.getZ i with
            | some e, some f => if e = f then some true else some false
            | _, _ => none
          else some true
        else some false
      | _, _ => none
    else some false
  | _, _ => none

/-- Spec-side short-circuit scan: the first per-index outcome that is not
`some true` (a mismatch or a failed read) is the overall outcome; when every
index passes the outcome is `some true`. -/
def firstNonPass : List (Option Bool) → Option Bool
  | [] => some true
  | some true :: rest => firstNonPass rest
  | r :: _ => r

/-- Spec-side restatement of the whole primitive, following §4.3 of the
spec. -/
def coordseqsEqlSpec (geom1 geom2 : Option GEOSGeometry)
    (check_z : Bool) : Option Bool :=
  match geom1, geom2 with
  | some g1, some g2 =>
    match g1.coordSeq, g2.coordSeq with
    | some cs1, some cs2 =>
      match cs1.size, cs2.size with
      | some len1, some len2 =>
        if len1 = len2 then
          firstNonPass ((List.range len1).map (coordCompareAt cs1 cs2 check_z))
        else some false
      | _, _ => none
    | _, _ => none
  | _, _ => none

/-! ## The Wrap protocol: `rgeo_wrap_geos_geometry` -/

/-- Outcome of a C entry point: a defined Ruby return value, or a crash
(a null-pointer dereference the source would perform on that input). -/
inductive WrapResult : Type where
  | ok (r : Option WrappedGeometry) : WrapResult
  | crash : WrapResult

/-- `rgeo_wrap_geos_geometry(factory, geom, klass)`, with the success of the
`ALLOC(RGeo_GeometryData)` call made explicit as `allocOk`.

Transcribed from the source: nothing happens (Qnil) unless `geom` is
non-NULL or `klass` is non-nil.  When the hint is not a `T_CLASS`, the class
is inferred from `GEOSGeomTypeId_r` through `factory_data->globals` (a crash
when the factory is nil, since `factory_data` is then NULL, or when `geom`
is NULL, since the engine is queried on a NULL handle); a `T_ARRAY` hint is
kept as `klasses` exactly when the inferred id is one of the four collection
ids.  After allocation, a non-NULL handle gets the factory's SRID forced via
`GEOSSetSRID_r` (dereferencing `factory_data`, hence a crash on a nil
factory), and the data fields are filled and wrapped in class `klass`. -/
def rgeo_wrap_geos_geometry (factory : Option RGeo_FactoryData)
    (geom : Option GEOSGeometry) (klass : KlassVal) (allocOk : Bool) :
    WrapResult :=
  if geom.isSome || klass ≠ KlassVal.nil then
    let resolved : WrapResult ⊕ (RClass × KlassVal) :=
      match klass with
      | KlassVal.cls c => Sum.inr (c, KlassVal.nil)
      | k =>
        match factory with
        | none => Sum.inl WrapResult.crash
        | some factory_data =>
          match geom with
          | none => Sum.inl WrapResult.crash
          | some g =>
            let globals := factory_data.globals
            let inferred : RClass × Bool :=
              match g.typeId with
              | GeomTypeId.point => (globals.geos_point, false)
              | GeomTypeId.lineString => (globals.geos_line_string, false)
              | GeomTypeId.linearRing => (globals.geos_linear_ring, false)
              | GeomTypeId.polygon => (globals.geos_polygon, false)
              | GeomTypeId.multiPoint => (globals.geos_multi_point, true)
              | GeomTypeId.multiLineString =>
                  (globals.geos_multi_line_string, true)
              | GeomTypeId.multiPolygon => (globals.geos_multi_polygon, true)
              | GeomTypeId.geometryCollection =>
                  (globals.geos_geometry_collection, true)
              | GeomTypeId.other => (globals.geos_geometry, false)
            let klasses : KlassVal :=
              match k with
              | KlassVal.arr cs =>
                if inferred.2 then KlassVal.arr cs else KlassVal.nil
              | _ => KlassVal.nil
            Sum.inr (inferred.1, klasses)
    match resolved with
    | Sum.inl r => r
    | Sum.inr (klass, klasses) =>
      if allocOk then
        match geom with
        | some g =>
          match factory with
          | none => WrapResult.crash
          | some factory_data =>
            WrapResult.ok (some
              { cls := klass
                data :=
                  { geom := some { g with srid := factory_data.srid }
                    geos_context := some factory_data.geos_context
                    factory := factory
                    klasses := klasses } })
        | none =>
          WrapResult.ok (some
            { cls := klass
              data :=
                { geom := none
                  geos_context :=
                    Option.map RGeo_FactoryData.geos_context factory
                  factory := factory
                  klasses := klasses } })
      else WrapResult.ok none
  else WrapResult.ok none

/-- Spec-side registry lookup used in the statement of claim C3: the class
the Process Registry associates with each geometry kind, the generic class
for every other kind. -/
def registryClassFor (globals : RGeo_Globals) : GeomTypeId → RClass
  | GeomTypeId.point => globals.geos_point
  | GeomTypeId.lineString => globals.geos_line_string
  | GeomTypeId.linearRing => globals.geos_linear_ring
  | GeomTypeId.polygon => globals.geos_polygon
  | GeomTypeId.multiPoint => globals.geos_multi_point
  | GeomTypeId.multiLineString => globals.geos_multi_line_string
  | GeomTypeId.multiPolygon => globals.geos_multi_polygon
  | GeomTypeId.geometryCollection => globals.geos_geometry_collection
  | GeomTypeId.other => globals.geos_geometry

/-- Spec-side predicate: the four collection kinds. -/
def GeomTypeId.isCollection : GeomTypeId → Bool
  | GeomTypeId.multiPoint => true
  | GeomTypeId.multiLineString => true
  | GeomTypeId.multiPolygon => true
  | GeomTypeId.geometryCollection => true
  | _ => false

/-! ## Factory construction and accessors -/

/-- `cmethod_factory_create(klass, flags, srid, buffer_resolution)`, with the
`ALLOC` success and the `initGEOS_r` result (a fresh context handle, or NULL
on failure) made explicit.  On context failure the data is freed and Qnil
returned. -/
def cmethod_factory_create (globals : RGeo_Globals) (allocOk : Bool)
    (contextResult : Option Nat) (flags srid buffer_resolution : Int) :
    Option RGeo_FactoryData :=
  if allocOk then
    match contextResult with
    | some context =>
      some
        { geos_context := context
          flags := flags
          srid := srid
          buffer_resolution := buffer_resolution
          wkt_reader := none
          wkb_reader := none
          wkt_writer := none
          wkb_writer := none
          globals := globals }
    | none => none
  else none

/-- `method_factory_srid(self)`. -/
def method_factory_srid (self : RGeo_FactoryData) : Int := self.srid

/-- `method_factory_buffer_resolution(self)`. -/
def method_factory_buffer_resolution (self : RGeo_FactoryData) : Int :=
  self.buffer_resolution

/-- `method_factory_flags(self)`. -/
def method_factory_flags (self : RGeo_FactoryData) : Int := self.flags

/-! ## Parsing: `method_factory_parse_wkt` / `method_factory_parse_wkb` -/

/-- `method_factory_parse_wkt(self, str)`.  The engine is abstracted by
`createResult` (outcome of `GEOSWKTReader_create_r`, consulted only when no
reader is cached) and `read` (outcome of `GEOSWKTReader_read_r` on a given
reader handle and string).  Returns the Ruby result together with the
factory data after the call (the reader field is assigned whenever it was
NULL, caching the — possibly NULL — creation result). -/
def method_factory_parse_wkt (createResult : Option Nat)
    (read : Nat → String → Option GEOSGeometry) (allocOk : Bool)
    (self : RGeo_FactoryData) (str : String) :
    WrapResult × RGeo_FactoryData :=
  match self.wkt_reader with
  | some wkt_reader =>
    match read wkt_reader str with
    | some geom =>
      (rgeo_wrap_geos_geometry (some self) (some geom) KlassVal.nil allocOk,
        self)
    | none => (WrapResult.ok none, self)
  | none =>
    let self' := { self with wkt_reader := createResult }
    match createResult with
    | some wkt_reader =>
      match read wkt_reader str with
      | some geom =>
        (rgeo_wrap_geos_geometry (some self') (some geom) KlassVal.nil
            allocOk,
          self')
      | none => (WrapResult.ok none, self')
    | none => (WrapResult.ok none, self')

/-- `method_factory_parse_wkb(self, str)`: same shape, binary input (a byte
list) and the `wkb_reader` slot. -/
def method_factory_parse_wkb (createResult : Option Nat)
    (read : Nat → List Nat → Option GEOSGeometry) (allocOk : Bool)
    (self : RGeo_FactoryData) (bytes : List Nat) :
    WrapResult × RGeo_FactoryData :=
  match self.wkb_reader with
  | some wkb_reader =>
    match read wkb_reader bytes with
    | some geom =>
      (rgeo_wrap_geos_geometry (some self) (some geom) KlassVal.nil allocOk,
        self)
    | none => (WrapResult.ok none, self)
  | none =>
    let self' := { self with wkb_reader := createResult }
    match createResult with
    | some wkb_reader =>
      match read wkb_reader bytes with
      | some geom =>
        (rgeo_wrap_geos_geometry (some self') (some geom) KlassVal.nil
            allocOk,
          self')
      | none => (WrapResult.ok none, self')
    | none => (WrapResult.ok none, self')

/-! ## Factory destruction: `destroy_factory_func` -/

/-- One resource-release step performed by `destroy_factory_func`, carrying
the handle it releases. -/
inductive DestroyEvent : Type where
  | wktReaderDestroy (h : Nat) : DestroyEvent
  | wkbReaderDestroy (h : Nat) : DestroyEvent
  | wktWriterDestroy (h : Nat) : DestroyEvent
  | wkbWriterDestroy (h : Nat) : DestroyEvent
  | finishContext (c : Nat) : DestroyEvent
  | freeData : DestroyEvent
deriving DecidableEq

/-- `destroy_factory_func(data)`, as the sequence of release calls it
performs: each serializer handle is destroyed when present (`if` guards in
the source), then `finishGEOS_r` on the context, then `free` on the data
itself.  The function is total on every factory state — it performs no
fallible operation. -/
def destroy_factory_func (data : RGeo_FactoryData) : List DestroyEvent :=
  (match data.wkt_reader with
    | some h => [DestroyEvent.wktReaderDestroy h]
    | none => []) ++
  (match data.wkb_reader with
    | some h => [DestroyEvent.wkbReaderDestroy h]
    | none => []) ++
  (match data.wkt_writer with
    | some h => [DestroyEvent.wktWriterDestroy h]
    | none => []) ++
  (match data.wkb_writer with
    | some h => [DestroyEvent.wkbWriterDestroy h]
    | none => []) ++
  [DestroyEvent.finishContext data.geos_context, DestroyEvent.freeData]

/-- Spec-side rank of a destroy event in the release order mandated by the
spec: wkt-reader, wkb-reader, wkt-writer, wkb-writer, context, storage. -/
def destroyRank : DestroyEvent → Nat
  | DestroyEvent.wktReaderDestroy _ => 0
  | DestroyEvent.wkbReaderDestroy _ => 1
  | DestroyEvent.wktWriterDestroy _ => 2
  | DestroyEvent.wkbWriterDestroy _ => 3
  | DestroyEvent.finishContext _ => 4
  | DestroyEvent.freeData => 5

/-! ## Detach: `rgeo_convert_to_detached_geos_geometry` -/

/-- The `cast` collaborator is external (`rb_funcall(..., "cast", ...)`);
its outcome is an input of the model: Qnil, or a geometry object (a Ruby
object with a concrete class, read by `CLASS_OF`, and geometry data). -/
def CastResult : Type := Option WrappedGeometry

/-- What `rgeo_convert_to_detached_geos_geometry` produces: the returned
native handle, the final content of the `*klasses` out-parameter (`none`
when the caller passed a NULL pointer), and the state of the cast-produced
object after the call (`none` when the cast yielded nothing, so no object
was touched). -/
structure DetachResult : Type where
  geom : Option GEOSGeometry
  klassesOut : Option KlassVal
  object : Option WrappedGeometry

/-- `rgeo_convert_to_detached_geos_geometry(obj, factory, type, klasses)`,
with the delegated cast's outcome as the input `castResult` and the
presence of the `klasses` out-pointer as `klassesPtr`.  Transcribed from
the source: `*klasses` is first set to Qnil; when the cast yields an
object, the handle is taken, `*klasses` receives the object's `klasses`
field or, when that is nil, `CLASS_OF(object)` as fallback, and the object
data's `geom`, `geos_context`, `factory` and `klasses` fields are all
cleared. -/
def rgeo_convert_to_detached_geos_geometry (klassesPtr : Bool)
    (castResult : CastResult) : DetachResult :=
  let klasses0 : Option KlassVal :=
    if klassesPtr then some KlassVal.nil else none
  match castResult with
  | none => { geom := none, klassesOut := klasses0, object := none }
  | some object =>
    let object_data := object.data
    let geom := object_data.geom
    let klassesOut : Option KlassVal :=
      if klassesPtr then
        some
          (match object_data.klasses with
            | KlassVal.nil => KlassVal.cls object.cls
            | k => k)
      else none
    let stripped : WrappedGeometry :=
      { object with
        data :=
          { geom := none
            geos_context := none
            factory := none
            klasses := KlassVal.nil } }
    { geom := geom, klassesOut := klassesOut, object := some stripped }

/-! ## Helper lemmas -/

/-- The source loop computes exactly the spec-side short-circuit scan of the
per-index comparisons over the index window it still has to visit. -/
theorem coordseqsEqlLoop_eq_firstNonPass (cs1 cs2 : GEOSCoordSeq)
    (check_z : Bool) :
    ∀ n i, coordseqsEqlLoop cs1 cs2 check_z i n =
      firstNonPass ((List.range' i n).map (coordCompareAt cs1 cs2 check_z)) := by
  intro n
  induction n with
  | zero =>
    intro i
    simp [coordseqsEqlLoop, firstNonPass]
  | succ n ih =>
    intro i
    rw [List.range'_succ, List.map_cons]
    simp only [coordseqsEqlLoop, coordCompareAt]
    rcases hx1 : cs1.getX i with _ | a <;> rcases hx2 : cs2.getX i with _ | b <;>
      simp [firstNonPass]
    by_cases hab : a = b
    · subst hab
      simp only [if_pos rfl]
      rcases hy1 : cs1.getY i with _ | c <;> rcases hy2 : cs2.getY i with _ | d <;>
        simp [firstNonPass]
      by_cases hcd : c = d
      · subst hcd
        simp only [if_pos rfl]
        cases check_z with
        | false =>
          simp [firstNonPass, ih]
        | true =>
          simp only [if_pos rfl]
          rcases hz1 : cs1.getZ i with _ | e <;>
            rcases hz2 : cs2.getZ i with _ | f <;> simp [firstNonPass]
          by_cases hef : e = f
          · subst hef
            simp [firstNonPass, ih]
          · simp [hef, firstNonPass]
      · simp [hcd, firstNonPass]
    · simp [hab, firstNonPass]

/-- The spec-side per-index comparison is symmetric in the two sequences. -/
theorem coordCompareAt_symm (cs1 cs2 : GEOSCoordSeq) (check_z : Bool)
    (i : Nat) :
    coordCompareAt cs1 cs2 check_z i = coordCompareAt cs2 cs1 check_z i := by
  unfold coordCompareAt
  rcases cs1.getX i with _ | a <;> rcases cs2.getX i with _ | b <;> simp
  by_cases hab : a = b
  · subst hab
    simp only [if_pos rfl]
    rcases cs1.getY i with _ | c <;> rcases cs2.getY i with _ | d <;> simp
    by_cases hcd : c = d
    · subst hcd
      simp only [if_pos rfl]
      cases check_z with
      | false => simp
      | true =>
        simp only [if_pos rfl]
        rcases cs1.getZ i with _ | e <;> rcases cs2.getZ i with _ | f <;> simp
        by_cases hef : e = f
        · subst hef
          simp
        · simp [hef, Ne.symm hef]
    · simp [hcd, Ne.symm hcd]
  · simp [hab, Ne.symm hab]

/-! ## Claims about `rgeo_geos_coordseqs_eql` -/

/-- C1: for every pair of native geometry handles and every `check_z` flag,
`rgeo_geos_coordseqs_eql` equals the specification-side component-wise
comparison `coordseqsEqlSpec`: lengths are compared first (`some false` on a
length mismatch regardless of content), then for each index X then Y then
(when `check_z`) Z with exact equality, short-circuiting at the first
mismatch with `some false`; the result is `none` (indeterminate) when either
handle is NULL, either geometry lacks a coordinate sequence, or any size or
coordinate read fails, and `some true` exactly when every compared component
is equal. -/
theorem coordseqs_eql_matches_componentwise_spec
    (geom1 geom2 : Option GEOSGeometry) (check_z : Bool) :
    rgeo_geos_coordseqs_eql geom1 geom2 check_z =
      coordseqsEqlSpec geom1 geom2 check_z := by
  unfold rgeo_geos_coordseqs_eql coordseqsEqlSpec
  rcases geom1 with _ | g1 <;> rcases geom2 with _ | g2 <;> simp
  obtain ⟨t1, s1, q1⟩ := g1
  obtain ⟨t2, s2, q2⟩ := g2
  rcases q1 with _ | cs1 <;> rcases q2 with _ | cs2 <;> simp
  rcases cs1.size with _ | n1 <;> rcases cs2.size with _ | n2 <;> simp
  by_cases h : n1 = n2
  · subst h
    simp [List.range_eq_range', coordseqsEqlLoop_eq_firstNonPass]
  · simp [h]

/-- C8: `rgeo_geos_coordseqs_eql` is symmetric in its two geometry
arguments, for the `some true` and `some false` outcomes and also for the
indeterminate (`none`) outcome. -/
theorem coordseqs_eql_symm (geom1 geom2 : Option GEOSGeometry)
    (check_z : Bool) :
    rgeo_geos_coordseqs_eql geom1 geom2 check_z =
      rgeo_geos_coordseqs_eql geom2 geom1 check_z := by
  unfold rgeo_geos_coordseqs_eql
  rcases geom1 with _ | g1 <;> rcases geom2 with _ | g2 <;> simp
  obtain ⟨t1, s1, q1⟩ := g1
  obtain ⟨t2, s2, q2⟩ := g2
  rcases q1 with _ | cs1 <;> rcases q2 with _ | cs2 <;> simp
  rcases cs1.size with _ | n1 <;> rcases cs2.size with _ | n2 <;> simp
  by_cases h : n1 = n2
  · subst h
    simp only [if_pos rfl]
    rw [coordseqsEqlLoop_eq_firstNonPass, coordseqsEqlLoop_eq_firstNonPass]
    have hmap : List.map (coordCompareAt cs1 cs2 check_z) (List.range' 0 n1) =
        List.map (coordCompareAt cs2 cs1 check_z) (List.range' 0 n1) :=
      List.map_congr_left fun a _ => coordCompareAt_symm cs1 cs2 check_z a
    rw [hmap]
  · simp [h, Ne.symm h]

/-! ## Claims about Detach -/

/-- C2: for every object the delegated coercion successfully produces,
`rgeo_convert_to_detached_geos_geometry` moves the native handle and the
member-classes out to the caller and strips the coerced wrapper: afterwards
its native handle, context handle and factory reference are empty and its
member-classes field is nil; when the wrapper's member-classes was nil, the
reported member-classes is the object's own concrete class as a single
fallback. -/
theorem detach_strips_wrapper (klassesPtr : Bool) (object : WrappedGeometry) :
    rgeo_convert_to_detached_geos_geometry klassesPtr (some object) =
      { geom := object.data.geom
        klassesOut :=
          if klassesPtr then
            some
              (if object.data.klasses = KlassVal.nil then
                KlassVal.cls object.cls
              else object.data.klasses)
          else none
        object := some
          { object with
            data :=
              { geom := none
                geos_context := none
                factory := none
                klasses := KlassVal.nil } } } := by
  obtain ⟨c, d⟩ := object
  obtain ⟨ge, ctx, fac, kl⟩ := d
  cases klassesPtr <;> cases kl <;> rfl

/-- C10: when the delegated coercion yields nothing,
`rgeo_convert_to_detached_geos_geometry` returns a NULL native handle, the
out-parameter — cleared to nil at entry, before the coercion is attempted —
stays nil, and no wrapper is touched. -/
theorem detach_cast_failure (klassesPtr : Bool) :
    rgeo_convert_to_detached_geos_geometry klassesPtr none =
      { geom := none
        klassesOut := if klassesPtr then some KlassVal.nil else none
        object := none } := by
  cases klassesPtr <;> rfl

/-! ## Claims about factory construction and accessors -/

/-- C9: for all integer inputs, a successful `cmethod_factory_create`
followed immediately by the three accessors returns exactly the inputs;
the accessors are pure projections of the factory data and leave it
unchanged. -/
theorem factory_create_accessor_roundtrip (globals : RGeo_Globals)
    (context : Nat) (flags srid buffer_resolution : Int) :
    ∃ data,
      cmethod_factory_create globals true (some context) flags srid
          buffer_resolution = some data ∧
      method_factory_flags data = flags ∧
      method_factory_srid data = srid ∧
      method_factory_buffer_resolution data = buffer_resolution :=
  ⟨_, rfl, rfl, rfl, rfl⟩

/-! ## Claim about factory destruction -/

/-- C7: for every factory state — each of the four helper handles
independently present or absent — `destroy_factory_func` is a total
function (no fault) whose release trace destroys exactly the helper
handles that are present, destroys the context exactly once and frees the
storage exactly once, all in strictly increasing `destroyRank` order:
wkt-reader, wkb-reader, wkt-writer, wkb-writer, context, storage. -/
theorem destroy_factory_release_order (data : RGeo_FactoryData) :
    ((∀ h, DestroyEvent.wktReaderDestroy h ∈ destroy_factory_func data ↔
        data.wkt_reader = some h) ∧
      (∀ h, DestroyEvent.wkbReaderDestroy h ∈ destroy_factory_func data ↔
        data.wkb_reader = some h) ∧
      (∀ h, DestroyEvent.wktWriterDestroy h ∈ destroy_factory_func data ↔
        data.wkt_writer = some h) ∧
      (∀ h, DestroyEvent.wkbWriterDestroy h ∈ destroy_factory_func data ↔
        data.wkb_writer = some h) ∧
      (∀ c, DestroyEvent.finishContext c ∈ destroy_factory_func data ↔
        c = data.geos_context) ∧
      DestroyEvent.freeData ∈ destroy_factory_func data) ∧
    (destroy_factory_func data).Pairwise
      (fun a b => destroyRank a < destroyRank b) := by
  obtain ⟨ctx, fl, sr, br, wr, kr, ww, kw, g⟩ := data
  cases wr <;> cases kr <;> cases ww <;> cases kw <;>
    simp [destroy_factory_func, destroyRank, eq_comm]

/-! ## Claims about the Wrap protocol -/

/-- A Wrap call with a real factory and a non-NULL handle never crashes:
it returns a defined Ruby value for every class hint and allocation
outcome. -/
theorem wrap_some_factory_some_geom_ok (factory_data : RGeo_FactoryData)
    (g : GEOSGeometry) (klass : KlassVal) (allocOk : Bool) :
    ∃ r, rgeo_wrap_geos_geometry (some factory_data) (some g) klass allocOk =
      WrapResult.ok r := by
  obtain ⟨t, s, q⟩ := g
  cases klass <;> cases t <;> cases allocOk <;> exact ⟨_, rfl⟩

/-- C3: when the class hint is not a concrete class (nil, or an array of
per-element classes), the wrapper's class is the one the registry
reachable from the factory associates with the native handle's runtime
geometry kind (`registryClassFor`), and an array hint is retained as the
wrapper's member-classes exactly when the inferred kind is one of the four
collection kinds. -/
theorem wrap_infers_class_from_kind (factory_data : RGeo_FactoryData)
    (g : GEOSGeometry) (cs : List RClass) :
    (∃ w,
      rgeo_wrap_geos_geometry (some factory_data) (some g) KlassVal.nil
          true = WrapResult.ok (some w) ∧
      w.cls = registryClassFor factory_data.globals g.typeId ∧
      w.data.klasses = KlassVal.nil) ∧
    (∃ w,
      rgeo_wrap_geos_geometry (some factory_data) (some g) (KlassVal.arr cs)
          true = WrapResult.ok (some w) ∧
      w.cls = registryClassFor factory_data.globals g.typeId ∧
      w.data.klasses =
        (if g.typeId.isCollection then KlassVal.arr cs else KlassVal.nil)) := by
  obtain ⟨t, s, q⟩ := g
  cases t <;> exact ⟨⟨_, rfl, rfl, rfl⟩, ⟨_, rfl, rfl, rfl⟩⟩

/-- C4: a NULL native handle together with a concrete class hint produces a
valid wrapper with an empty handle — for any factory argument, nil
included, which shows no inferred-type lookup touches the registry (the
inference path crashes on a nil factory) — and on this input Wrap returns
an empty result exactly when the wrapper storage allocation fails. -/
theorem wrap_null_handle_concrete_class (factory : Option RGeo_FactoryData)
    (c : RClass) :
    (∃ w,
      rgeo_wrap_geos_geometry factory none (KlassVal.cls c) true =
        WrapResult.ok (some w) ∧
      w.cls = c ∧ w.data.geom = none ∧ w.data.factory = factory) ∧
    rgeo_wrap_geos_geometry factory none (KlassVal.cls c) false =
      WrapResult.ok none := by
  cases factory <;> exact ⟨⟨_, rfl, rfl, rfl, rfl⟩, rfl⟩

/-- C5: wrapping a non-NULL native handle forces the handle's SRID to the
factory's configured SRID, for every class hint; wrapping a NULL handle
performs no SRID assignment (the wrapper's handle stays empty). -/
theorem wrap_forces_factory_srid (factory_data : RGeo_FactoryData)
    (g : GEOSGeometry) (klass : KlassVal) (c : RClass) :
    (∃ w,
      rgeo_wrap_geos_geometry (some factory_data) (some g) klass true =
        WrapResult.ok (some w) ∧
      w.data.geom = some { g with srid := factory_data.srid }) ∧
    (∃ w,
      rgeo_wrap_geos_geometry (some factory_data) none (KlassVal.cls c)
          true = WrapResult.ok (some w) ∧
      w.data.geom = none) := by
  obtain ⟨t, s, q⟩ := g
  cases klass <;> cases t <;> exact ⟨⟨_, rfl, rfl⟩, ⟨_, rfl, rfl⟩⟩

/-! ## Claim about parsing -/

/-- C6: for every input, `method_factory_parse_wkt` and
`method_factory_parse_wkb` return a defined Ruby value (never a fault):
Qnil when the lazily-created reader cannot be created or when the engine
parse fails; a cached reader is reused as-is (the factory state is
unchanged and the creation outcome is irrelevant); when no reader is
cached the creation outcome is stored in the factory, the reader slot
thereby being populated on the first successful creation and reused by
subsequent calls; on a successful parse the result is produced by
`rgeo_wrap_geos_geometry` with the nil class hint, i.e. with inferred
type. -/
theorem parse_wkt_wkb_contract (createResult : Option Nat)
    (readT : Nat → String → Option GEOSGeometry)
    (readB : Nat → List Nat → Option GEOSGeometry)
    (allocOk : Bool) (self : RGeo_FactoryData) (str : String)
    (bytes : List Nat) :
    (∃ v, (method_factory_parse_wkt createResult readT allocOk self str).1 =
      WrapResult.ok v) ∧
    (∃ v, (method_factory_parse_wkb createResult readB allocOk self bytes).1 =
      WrapResult.ok v) ∧
    (∀ r, self.wkt_reader = some r →
      method_factory_parse_wkt createResult readT allocOk self str =
        ((match readT r str with
          | some geom =>
            rgeo_wrap_geos_geometry (some self) (some geom) KlassVal.nil
              allocOk
          | none => WrapResult.ok none), self)) ∧
    (∀ r, self.wkb_reader = some r →
      method_factory_parse_wkb createResult readB allocOk self bytes =
        ((match readB r bytes with
          | some geom =>
            rgeo_wrap_geos_geometry (some self) (some geom) KlassVal.nil
              allocOk
          | none => WrapResult.ok none), self)) ∧
    (self.wkt_reader = none →
      method_factory_parse_wkt createResult readT allocOk self str =
        ((match createResult with
          | none => WrapResult.ok none
          | some r =>
            match readT r str with
            | some geom =>
              rgeo_wrap_geos_geometry
                (some { self with wkt_reader := some r }) (some geom)
                KlassVal.nil allocOk
            | none => WrapResult.ok none),
          { self with wkt_reader := createResult })) ∧
    (self.wkb_reader = none →
      method_factory_parse_wkb createResult readB allocOk self bytes =
        ((match createResult with
          | none => WrapResult.ok none
          | some r =>
            match readB r bytes with
            | some geom =>
              rgeo_wrap_geos_geometry
                (some { self with wkb_reader := some r }) (some geom)
                KlassVal.nil allocOk
            | none => WrapResult.ok none),
          { self with wkb_reader := createResult })) := by
  refine ⟨?_, ?_, ?_, ?_, ?_, ?_⟩
  · rcases h : self.wkt_reader with _ | r
    · rcases hc : createResult with _ | r
      · exact ⟨none, by simp [method_factory_parse_wkt, h, hc]⟩
      · rcases hr : readT r str with _ | geom
        · exact ⟨none, by simp [method_factory_parse_wkt, h, hc, hr]⟩
        · obtain ⟨v, hv⟩ := wrap_some_factory_some_geom_ok
            { self with wkt_reader := some r } geom KlassVal.nil allocOk
          exact ⟨v, by simp [method_factory_parse_wkt, h, hc, hr, hv]⟩
    · rcases hr : readT r str with _ | geom
      · exact ⟨none, by simp [method_factory_parse_wkt, h, hr]⟩
      · obtain ⟨v, hv⟩ := wrap_some_factory_some_geom_ok self geom
          KlassVal.nil allocOk
        exact ⟨v, by simp [method_factory_parse_wkt, h, hr, hv]⟩
  · rcases h : self.wkb_reader with _ | r
    · rcases hc : createResult with _ | r
      · exact ⟨none, by simp [method_factory_parse_wkb, h, hc]⟩
      · rcases hr : readB r bytes with _ | geom
        · exact ⟨none, by simp [method_factory_parse_wkb, h, hc, hr]⟩
        · obtain ⟨v, hv⟩ := wrap_some_factory_some_geom_ok
            { self with wkb_reader := some r } geom KlassVal.nil allocOk
          exact ⟨v, by simp [method_factory_parse_wkb, h, hc, hr, hv]⟩
    · rcases hr : readB r bytes with _ | geom
      · exact ⟨none, by simp [method_factory_parse_wkb, h, hr]⟩
      · obtain ⟨v, hv⟩ := wrap_some_factory_some_geom_ok self geom
          KlassVal.nil allocOk
        exact ⟨v, by simp [method_factory_parse_wkb, h, hr, hv]⟩
  · intro r h
    rcases hr : readT r str with _ | geom <;>
      simp [method_factory_parse_wkt, h, hr]
  · intro r h
    rcases hr : readB r bytes with _ | geom <;>
      simp [method_factory_parse_wkb, h, hr]
  · intro h
    rcases hc : createResult with _ | r
    · simp [method_factory_parse_wkt, h, hc]
    · rcases hr : readT r str with _ | geom <;>
        simp [method_factory_parse_wkt, h, hc, hr]
  · intro h
    rcases hc : createResult with _ | r
    · simp [method_factory_parse_wkb, h, hc]
    · rcases hr : readB r bytes with _ | geom <;>
        simp [method_factory_parse_wkb, h, hc, hr]

/-- A concrete registry used by the witness below. -/
def witGlobals : RGeo_Globals :=
  { geos_geometry := 0
    geos_point := 1
    geos_line_string := 2
    geos_linear_ring := 3
    geos_polygon := 4
    geos_multi_point := 5
    geos_multi_line_string := 6
    geos_multi_polygon := 7
    geos_geometry_collection := 8 }

/-- A concrete factory with both reader handles cached. -/
def witFactoryCached : RGeo_FactoryData :=
  { geos_context := 10
    flags := 0
    srid := 4326
    buffer_resolution := 1
    wkt_reader := some 21
    wkb_reader := some 22
    wkt_writer := none
    wkb_writer := none
    globals := witGlobals }

/-- A concrete factory with no helper handles. -/
def witFactoryBare : RGeo_FactoryData :=
  { geos_context := 10
    flags := 0
    srid := 4326
    buffer_resolution := 1
    wkt_reader := none
    wkb_reader := none
    wkt_writer := none
    wkb_writer := none
    globals := witGlobals }

/-- Witness for C6: at a factory with a cached WKT reader and an engine
whose parse fails, the call returns Qnil and leaves the factory unchanged;
at a factory with no readers and a failing reader creation, both parse
entry points return Qnil and cache the NULL creation outcome. -/
theorem parse_wkt_wkb_contract_witness :
    method_factory_parse_wkt (some 9) (fun _ _ => none) true
        witFactoryCached "POINT (1 2)" =
      (WrapResult.ok none, witFactoryCached) ∧
    method_factory_parse_wkt none (fun _ _ => none) true witFactoryBare
        "POINT (1 2)" = (WrapResult.ok none, witFactoryBare) ∧
    method_factory_parse_wkb none (fun _ _ => none) true witFactoryBare
        [1, 2] = (WrapResult.ok none, witFactoryBare) :=
  ⟨(parse_wkt_wkb_contract (some 9) (fun _ _ => none) (fun _ _ => none)
      true witFactoryCached "POINT (1 2)" [1, 2]).2.2.1 21 rfl,
    (parse_wkt_wkb_contract none (fun _ _ => none) (fun _ _ => none)
      true witFactoryBare "POINT (1 2)" [1, 2]).2.2.2.2.1 rfl,
    (parse_wkt_wkb_contract none (fun _ _ => none) (fun _ _ => none)
      true witFactoryBare "POINT (1 2)" [1, 2]).2.2.2.2.2 rfl⟩
